import Mathlib

/-!
Shallow embedding of the visibility reconciliation and gated event-dispatch
engine of `src/src/components/Modal.tsx` (primary variant, lines 155-271) and
of the variant in `src/unnamed/part_000` (lines 155-263).

Conventions of the embedding:
* TypeScript `boolean | undefined` becomes `Option Bool`; JavaScript
  truthiness of such a value (`x ? _ : _`, `!x`) is `x.getD false` resp.
  `!(x.getD false)` (since `!undefined = true`, `!false = true`, `!true = false`).
* `a ?? b` (nullish coalescing) becomes `jsNullish a b`.
* Optional caller callbacks (`onVisible`, `onClose`, `onClick`, `onTouchEnd`,
  `onPress`) are modelled by presence flags on `ModalProps`; invoking one
  (`f?.(x)`) emits a `Call` into an explicit call trace exactly when the
  corresponding flag is set.
* React `useState` is explicit state passing on `ModalState`; the `useEffect`
  body is the function `resolve`, an interaction on a wrapped handler is the
  function `handleResponse`.
* The `status` state is kept as the strings of the source: "idle" before the first
  resolution, "succeeded" afterwards.
-/

/-- JavaScript nullish coalescing `a ?? b` on optional values. -/
def jsNullish {α : Type} (a b : Option α) : Option α :=
  match a with
  | some x => some x
  | none => b

/-- The three interaction event kinds wired by `bindEvents`
(`bindEvenNames` listing onClick, onPress, onTouchEnd). -/
inductive EventType where
  | onClick
  | onTouchEnd
  | onPress
deriving DecidableEq

/-- The four render slots of the component. -/
inductive Slot where
  | header
  | main
  | footer
  | container
deriving DecidableEq

/-- The props consumed by the core, with optional caller callbacks modelled as
presence flags (`hasOnClick = true` iff the caller supplied `onClick`, etc.). -/
structure ModalProps where
  visible : Option Bool
  defaultVisible : Option Bool
  loading : Option Bool
  disabledModalClose : Option Bool
  hasOnVisible : Bool
  hasOnClose : Bool
  hasOnClick : Bool
  hasOnTouchEnd : Bool
  hasOnPress : Bool
deriving DecidableEq

/-- Whether the caller registered a handler for the given event kind
(the source infers this from which callback props are present:
`eventNames = Object.keys(props).filter(key => bindEvenNames.includes(key))`). -/
def hasHandler (p : ModalProps) : EventType → Bool
  | .onClick => p.hasOnClick
  | .onTouchEnd => p.hasOnTouchEnd
  | .onPress => p.hasOnPress

/-- `ModalOptions` of the source: the visible value (optional boolean) together
with the event that triggered the change, when any. -/
structure ModalOptions (E : Type) where
  visible : Option Bool
  event : Option E
deriving DecidableEq

/-- Component-local state: `status` (either `idle` or `succeeded`) and `modalOptions`. -/
structure ModalState (E : Type) where
  status : String
  modalOptions : ModalOptions E
deriving DecidableEq

/-- Initial state at mount:
`useState` with `idle` and `useState` with `visible: false`. -/
def initialModalState (E : Type) : ModalState E :=
  { status := "idle", modalOptions := { visible := some false, event := none } }

/-- One observable callback invocation. `visibleChange` is a call of the
`onVisible` callback of the caller, `close` a call of `onClose`, and `caller kind e` a call
of the own event-kind handler of the caller (`onClick`/`onTouchEnd`/`onPress`). -/
inductive Call (E : Type) where
  | visibleChange (options : ModalOptions E)
  | close (options : ModalOptions E)
  | caller (kind : EventType) (event : E)
deriving DecidableEq

/-- `handleModalOptionsChange` of the source:
`onVisible?.(options); !options.visible && onClose?.(options);`. -/
def handleModalOptionsChange {E : Type} (p : ModalProps) (options : ModalOptions E) :
    List (Call E) :=
  (if p.hasOnVisible then [Call.visibleChange options] else []) ++
  (if !(options.visible.getD false) then
    (if p.hasOnClose then [Call.close options] else [])
  else [])

/-- The guard of `handleResponse` in Modal.tsx:
loading and close checks: when `disabledModalClose` is a boolean the guard is `!disabledModalClose && !loading`, otherwise `!loading`. -/
def isResponse (p : ModalProps) : Bool :=
  match p.disabledModalClose with
  | some d => !d && !(p.loading.getD false)
  | none => !(p.loading.getD false)

/-- `handleResponse` of Modal.tsx. `kind` identifies which caller callback was
passed in (`handleCallback` passes `onClick`/`onTouchEnd`/`onPress`); the
trailing `callback?.(e)` emits a `caller` call exactly when that callback is
present. Everything, including the caller callback, sits inside
`if (isResponse)`. -/
def handleResponse {E : Type} (p : ModalProps) (s : ModalState E)
    (kind : EventType) (e : E) : ModalState E × List (Call E) :=
  if isResponse p then
    let nextVisible := !(s.modalOptions.visible.getD false)
    let options : ModalOptions E := { visible := some nextVisible, event := some e }
    ({ s with modalOptions := options },
      handleModalOptionsChange p options ++
        (if hasHandler p kind then [Call.caller kind e] else []))
  else (s, [])

/-- The `nextVisible` computed at the top of the `useEffect` body:
when `status` differs from `idle` it is `visible`, otherwise `defaultVisible ?? visible`. -/
def resolveNext {E : Type} (p : ModalProps) (s : ModalState E) : Option Bool :=
  if s.status ≠ "idle" then p.visible
  else jsNullish p.defaultVisible p.visible

/-- The `isUpdate` flag inside the `setModalOptions` updater:
`currentOptions.visible` differs from `nextVisible` and `status` equals `succeeded`. -/
def resolveIsUpdate {E : Type} (s : ModalState E) (nv : Bool) : Bool :=
  (s.modalOptions.visible ≠ some nv : Bool) && (s.status = "succeeded" : Bool)

/-- The `useEffect` body of Modal.tsx: compute `nextVisible`; when it is a
boolean, commit `{ visible: nextVisible }` and, when `isUpdate`, notify the
observers; finally when `status` equals `idle` set it to `succeeded`. -/
def resolve {E : Type} (p : ModalProps) (s : ModalState E) :
    ModalState E × List (Call E) :=
  match resolveNext p s with
  | some nv =>
    let calls :=
      if resolveIsUpdate s nv then
        handleModalOptionsChange p { visible := some nv, event := none }
      else []
    let s1 : ModalState E := { s with modalOptions := { visible := some nv, event := none } }
    (if s1.status = "idle" then { s1 with status := "succeeded" } else s1, calls)
  | none =>
    (if s.status = "idle" then { s with status := "succeeded" } else s, [])

/-- Slot wiring of Modal.tsx: the `events` object is spread into the header,
footer and main bundles; the container bundle is
`renderContainer({ ...childrenProps, children: main })` with no handlers. -/
def slotHasEvents : Slot → Bool
  | .container => false
  | _ => true

/-- An interaction delivered to a slot of Modal.tsx: the wrapped handler exists
only when the slot is wired with events and the kind is registered; otherwise
nothing happens. -/
def slotInteract {E : Type} (p : ModalProps) (s : ModalState E) (slot : Slot)
    (kind : EventType) (e : E) : ModalState E × List (Call E) :=
  if slotHasEvents slot && hasHandler p kind then handleResponse p s kind e
  else (s, [])

/-- The guard of `handleResponse` in part_000:
`checkModalClose ? !disabledModalClose && !loading : !loading`. -/
def part000Response (p : ModalProps) (checkModalClose : Option Bool) : Bool :=
  if checkModalClose.getD false then
    !(p.disabledModalClose.getD false) && !(p.loading.getD false)
  else !(p.loading.getD false)

/-- `handleResponse` of part_000, parameterized on the `checkModalClose`
option that `handleCallback(checkModalClose)` closes over. -/
def part000HandleResponse {E : Type} (p : ModalProps) (s : ModalState E)
    (checkModalClose : Option Bool) (kind : EventType) (e : E) :
    ModalState E × List (Call E) :=
  if part000Response p checkModalClose then
    let nextVisible := !(s.modalOptions.visible.getD false)
    let options : ModalOptions E := { visible := some nextVisible, event := some e }
    ({ s with modalOptions := options },
      handleModalOptionsChange p options ++
        (if hasHandler p kind then [Call.caller kind e] else []))
  else (s, [])

/-- part_000 slot wiring of the `checkModalClose` argument: the container
handlers come from `bindEvents(events, handleCallback(true))`; the header and
footer handlers from `bindEvents(events, handleCallback())` (undefined). -/
def part000CheckFor : Slot → Option Bool
  | .container => some true
  | _ => none

/-- part_000 wiring: header, footer and container receive the bound events;
main is rendered with `renderMain?.(childrenProps)` and receives none. -/
def part000SlotHasEvents : Slot → Bool
  | .main => false
  | _ => true

/-- An interaction delivered to a slot of part_000. -/
def part000SlotInteract {E : Type} (p : ModalProps) (s : ModalState E)
    (slot : Slot) (kind : EventType) (e : E) : ModalState E × List (Call E) :=
  if part000SlotHasEvents slot && hasHandler p kind then
    part000HandleResponse p s (part000CheckFor slot) kind e
  else (s, [])

/-- The read-only props bundle handed to every render slot of Modal.tsx:
`const childrenProps = { ...args, id, visible, loading, defaultVisible }`.
Note that `visible` here is the destructured `visible` prop, not the
component-local `modalOptions.visible`. -/
structure ChildrenProps where
  id : String
  visible : Option Bool
  loading : Option Bool
  defaultVisible : Option Bool
deriving DecidableEq

/-- `childrenProps` of Modal.tsx. -/
def childrenProps (id : String) (p : ModalProps) : ChildrenProps :=
  { id := id, visible := p.visible, loading := p.loading,
    defaultVisible := p.defaultVisible }

/-- One step of the lifetime of the component: either an update cycle (the
`useEffect` body runs) or an interaction on a wrapped handler. Each step
carries the props of that cycle, since inputs are recomputed every cycle. -/
inductive ModalStep (E : Type) where
  | update (p : ModalProps)
  | interaction (p : ModalProps) (kind : EventType) (e : E)

/-- Run a sequence of lifetime steps from a state, discarding call traces. -/
def runSteps {E : Type} (s : ModalState E) : List (ModalStep E) → ModalState E
  | [] => s
  | .update p :: rest => runSteps (resolve p s).1 rest
  | .interaction p kind e :: rest => runSteps (handleResponse p s kind e).1 rest

/-- Whether a call is an observer notification (`onVisible` or `onClose`),
as opposed to the own event-kind callback of the caller. -/
def isObserverCall {E : Type} : Call E → Bool
  | .visibleChange _ => true
  | .close _ => true
  | .caller _ _ => false

/-- The formula of the spec for the first resolution, for comparison with the
`resolveNext` of the source: "next = controlledVisible ?? defaultVisible". -/
def specFirstResolveNext (p : ModalProps) : Option Bool :=
  jsNullish p.visible p.defaultVisible

/-- A concrete controlled props value used for evaluating settled resolution. -/
def pSettledW : ModalProps :=
  ⟨some true, none, none, none, true, true, false, false, false⟩

/-- A concrete settled state used for evaluating settled resolution. -/
def sSettledW : ModalState Nat :=
  ⟨"succeeded", ⟨some false, none⟩⟩

/-! ## Helper lemmas -/

lemma mem_change_isObserver {E : Type} (p : ModalProps) (o : ModalOptions E) :
    ∀ c ∈ handleModalOptionsChange p o, isObserverCall c = true := by
  intro c hc
  simp only [handleModalOptionsChange, List.mem_append] at hc
  rcases hc with h | h
  · split at h
    · simp only [List.mem_singleton] at h
      subst h
      rfl
    · simp at h
  · split at h
    · split at h
      · simp only [List.mem_singleton] at h
        subst h
        rfl
      · simp at h
    · simp at h

lemma observers_first {α : Type} (q : α → Bool) (A B : List α)
    (hA : ∀ a ∈ A, q a = true) (hB : ∀ b ∈ B, q b = false)
    (i j : ℕ) (hi : i < (A ++ B).length) (hj : j < (A ++ B).length)
    (hqi : q ((A ++ B).get ⟨i, hi⟩) = true)
    (hqj : q ((A ++ B).get ⟨j, hj⟩) = false) : i < j := by
  have hiA : i < A.length := by
    by_contra hge
    push_neg at hge
    have hlen : i - A.length < B.length := by
      have := hi
      rw [List.length_append] at this
      omega
    have hEq : (A ++ B).get ⟨i, hi⟩ = B.get ⟨i - A.length, hlen⟩ := by
      simp [List.get_eq_getElem, List.getElem_append_right hge]
    rw [hEq] at hqi
    have := hB (B.get ⟨i - A.length, hlen⟩) (List.get_mem B (i - A.length) hlen)
    rw [this] at hqi
    exact Bool.false_ne_true hqi
  have hjA : A.length ≤ j := by
    by_contra hlt
    push_neg at hlt
    have hEq : (A ++ B).get ⟨j, hj⟩ = A.get ⟨j, hlt⟩ := by
      simp [List.get_eq_getElem, List.getElem_append_left hlt]
    rw [hEq] at hqj
    have := hA (A.get ⟨j, hlt⟩) (List.get_mem A j hlt)
    rw [this] at hqj
    exact Bool.false_ne_true hqj.symm
  omega

lemma handleResponse_visible_isSome {E : Type} (p : ModalProps) (s : ModalState E)
    (kind : EventType) (e : E) (h : (s.modalOptions.visible).isSome = true) :
    ((handleResponse p s kind e).1.modalOptions.visible).isSome = true := by
  unfold handleResponse
  split
  · simp
  · exact h

lemma resolve_visible_isSome {E : Type} (p : ModalProps) (s : ModalState E)
    (h : (s.modalOptions.visible).isSome = true) :
    ((resolve p s).1.modalOptions.visible).isSome = true := by
  cases hn : resolveNext p s with
  | some nv =>
    simp only [resolve, hn]
    split <;> simp
  | none =>
    simp only [resolve, hn]
    split <;> simpa using h

lemma runSteps_visible_isSome {E : Type} (steps : List (ModalStep E)) :
    ∀ s : ModalState E, (s.modalOptions.visible).isSome = true →
      ((runSteps s steps).modalOptions.visible).isSome = true := by
  induction steps with
  | nil => intro s h; exact h
  | cons st rest ih =>
    intro s h
    cases st with
    | update p => exact ih _ (resolve_visible_isSome p s h)
    | interaction p kind e => exact ih _ (handleResponse_visible_isSome p s kind e h)

/-! ## Claim theorems -/

/-- C5: for every current visibility value `v`, a permitted toggle commits
exactly the negation `!v`, and two consecutive permitted toggles with no
intervening external resolution return the state to `v`. -/
theorem toggle_symmetry {E : Type} (p : ModalProps) (s : ModalState E) (v : Bool)
    (kind kind2 : EventType) (e e2 : E)
    (hperm : isResponse p = true) (hv : s.modalOptions.visible = some v) :
    (handleResponse p s kind e).1.modalOptions.visible = some (!v) ∧
    (handleResponse p (handleResponse p s kind e).1 kind2 e2).1.modalOptions.visible
      = some v := by
  simp [handleResponse, hperm, hv]

theorem toggle_symmetry_witness :
    (handleResponse ⟨none, none, none, none, true, true, true, false, false⟩
      (initialModalState Nat) .onClick 0).1.modalOptions.visible = some true ∧
    (handleResponse ⟨none, none, none, none, true, true, true, false, false⟩
      (handleResponse ⟨none, none, none, none, true, true, true, false, false⟩
        (initialModalState Nat) .onClick 0).1 .onClick 1).1.modalOptions.visible
      = some false :=
  toggle_symmetry ⟨none, none, none, none, true, true, true, false, false⟩
    (initialModalState Nat) false .onClick .onClick 0 1 rfl rfl

/-- C6: the very first resolution from the `idle` (Uninitialized) lifecycle
state, to whatever value it settles, never invokes the visibility observer:
the `useEffect` body emits no calls when `status` equals `idle`. -/
theorem first_settle_silent {E : Type} (p : ModalProps) (s : ModalState E)
    (h : s.status = "idle") : (resolve p s).2 = [] := by
  unfold resolve
  cases hn : resolveNext p s with
  | none => simp
  | some nv => simp [resolveIsUpdate, h]

theorem first_settle_silent_witness :
    (resolve ⟨some true, some false, none, none, true, true, false, false, false⟩
      (initialModalState Nat)).2 = [] :=
  first_settle_silent ⟨some true, some false, none, none, true, true, false, false, false⟩
    (initialModalState Nat) rfl

/-- C8: after the lifecycle is Settled (`status` equals `succeeded`), a second
call of `resolve` with unchanged inputs emits no observer notification and
leaves the state unchanged; moreover, whenever the resolved next value is
undefined, `currentVisible` is left unchanged. -/
theorem settled_resolve_idempotent {E : Type} (p : ModalProps) (s : ModalState E)
    (h : s.status = "succeeded") :
    ((resolve p ((resolve p s).1)).2 = [] ∧
      (resolve p ((resolve p s).1)).1 = (resolve p s).1) ∧
    (resolveNext p s = none → (resolve p s).1.modalOptions.visible
      = s.modalOptions.visible) := by
  cases hv : p.visible with
  | none => simp [resolve, resolveNext, resolveIsUpdate, h, hv, jsNullish]
  | some nv => simp [resolve, resolveNext, resolveIsUpdate, h, hv, jsNullish]

theorem settled_resolve_idempotent_witness :
    ((resolve pSettledW ((resolve pSettledW sSettledW).1)).2 = [] ∧
      (resolve pSettledW ((resolve pSettledW sSettledW).1)).1
        = (resolve pSettledW sSettledW).1) ∧
    (resolveNext pSettledW sSettledW = none →
      (resolve pSettledW sSettledW).1.modalOptions.visible = some false) :=
  settled_resolve_idempotent pSettledW sSettledW rfl

/-- C4: for every committed visibility transition, the `onClose` observer is
invoked iff the resulting visible value is `false` — both for permitted
toggles via `handleResponse` and for settled external updates via `resolve` —
and never on a transition whose resulting value is `true`. -/
theorem close_fires_iff_closed {E : Type} (p : ModalProps) (s : ModalState E)
    (kind : EventType) (e : E) (hc : p.hasOnClose = true) :
    (isResponse p = true →
      ((∃ o, Call.close o ∈ (handleResponse p s kind e).2) ↔
        (handleResponse p s kind e).1.modalOptions.visible = some false)) ∧
    (∀ nv : Bool, resolveNext p s = some nv → resolveIsUpdate s nv = true →
      ((∃ o, Call.close o ∈ (resolve p s).2) ↔ nv = false)) := by
  constructor
  · intro hr
    cases hb : s.modalOptions.visible.getD false <;>
      cases hhv : p.hasOnVisible <;>
        cases hk : hasHandler p kind <;>
          simp [handleResponse, hr, handleModalOptionsChange, hc, hb, hhv, hk]
  · intro nv hn hu
    cases nv <;>
      cases hhv : p.hasOnVisible <;>
        simp [resolve, hn, hu, handleModalOptionsChange, hc, hhv]

theorem close_fires_iff_closed_witness :
    (∃ o, Call.close o ∈
      (handleResponse ⟨none, none, none, none, true, true, true, false, false⟩
        (⟨"succeeded", ⟨some true, none⟩⟩ : ModalState Nat) .onClick 0).2) :=
  ((close_fires_iff_closed ⟨none, none, none, none, true, true, true, false, false⟩
    (⟨"succeeded", ⟨some true, none⟩⟩ : ModalState Nat) .onClick 0 rfl).1 rfl).mpr rfl

/-- C7: within every permitted toggle, every observer notification (the calls
of `onVisible` and `onClose` carrying the post-transition value) occurs in the
call trace strictly before the own event-kind callback of the caller. -/
theorem observer_before_caller {E : Type} (p : ModalProps) (s : ModalState E)
    (kind : EventType) (e : E) (hperm : isResponse p = true)
    (i j : ℕ) (hi : i < (handleResponse p s kind e).2.length)
    (hj : j < (handleResponse p s kind e).2.length)
    (hobs : isObserverCall ((handleResponse p s kind e).2.get ⟨i, hi⟩) = true)
    (hcall : (handleResponse p s kind e).2.get ⟨j, hj⟩ = Call.caller kind e) :
    i < j := by
  have hsplit : (handleResponse p s kind e).2 =
      handleModalOptionsChange p
        { visible := some (!(s.modalOptions.visible.getD false)), event := some e } ++
      (if hasHandler p kind then [Call.caller kind e] else []) := by
    simp [handleResponse, hperm]
  have hqj : isObserverCall ((handleResponse p s kind e).2.get ⟨j, hj⟩) = false := by
    rw [hcall]
    rfl
  clear hcall
  revert hi hj hobs hqj
  rw [hsplit]
  intro hi hj hobs hqj
  exact observers_first isObserverCall _ _
    (mem_change_isObserver p _)
    (by split <;> simp [isObserverCall])
    i j hi hj hobs hqj

theorem observer_before_caller_witness :
    (0 : ℕ) < 1 :=
  observer_before_caller ⟨none, none, none, none, true, true, true, false, false⟩
    (initialModalState Nat) .onClick 0 rfl 0 1 (by decide) (by decide)
    (by decide) (by decide)

/-- C10: the internal visibility state is a defined boolean at every point of
the lifetime: it is `some false` at mount, it stays defined under every
sequence of update and interaction steps, and with neither a controlled
`visible` nor a `defaultVisible` supplied the first permitted toggle commits
`some true` and fires the `onVisible` observer with visible `true`. -/
theorem visible_always_defined {E : Type} (e : E) :
    (initialModalState E).modalOptions.visible = some false ∧
    (∀ steps : List (ModalStep E),
      ((runSteps (initialModalState E) steps).modalOptions.visible).isSome = true) ∧
    ((handleResponse ⟨none, none, none, none, true, true, true, false, false⟩
        (resolve ⟨none, none, none, none, true, true, true, false, false⟩
          (initialModalState E)).1 .onClick e).1.modalOptions.visible = some true ∧
      Call.visibleChange { visible := some true, event := some e } ∈
        (handleResponse ⟨none, none, none, none, true, true, true, false, false⟩
          (resolve ⟨none, none, none, none, true, true, true, false, false⟩
            (initialModalState E)).1 .onClick e).2) := by
  refine ⟨rfl, fun steps => runSteps_visible_isSome steps _ rfl, ?_, ?_⟩
  · simp [resolve, resolveNext, jsNullish, initialModalState, handleResponse,
      isResponse, handleModalOptionsChange]
  · simp [resolve, resolveNext, jsNullish, initialModalState, handleResponse,
      isResponse, handleModalOptionsChange, hasHandler]

/-- C1 counterexample: with `loading` true the guard denies, and the caller
`onClick` handler is NOT invoked (the trace is empty), refuting the claim that
the own handler of the caller fires regardless of the guard outcome. -/
theorem guard_denied_drops_callback_counterexample :
    isResponse ⟨none, none, some true, none, true, true, true, false, false⟩ = false ∧
    (handleResponse ⟨none, none, some true, none, true, true, true, false, false⟩
      (initialModalState Nat) .onClick 0).2 = [] ∧
    Call.caller EventType.onClick (0 : Nat) ∉
      (handleResponse ⟨none, none, some true, none, true, true, true, false, false⟩
        (initialModalState Nat) .onClick 0).2 := by
  decide

/-- C1 (amended): the caller event-kind handler is invoked exactly when the
guard permits and that handler is registered; when the guard denies, the
whole interaction is dropped — no state change, no observer call, and no
caller callback either. -/
theorem handler_invoked_iff_guard_permits {E : Type} (p : ModalProps)
    (s : ModalState E) (kind : EventType) (e : E) :
    (isResponse p = false → handleResponse p s kind e = (s, [])) ∧
    (Call.caller kind e ∈ (handleResponse p s kind e).2 ↔
      (isResponse p = true ∧ hasHandler p kind = true)) := by
  constructor
  · intro h
    simp [handleResponse, h]
  · cases hr : isResponse p with
    | false => simp [handleResponse, hr]
    | true =>
      cases hk : hasHandler p kind <;>
        cases hhv : p.hasOnVisible <;>
          cases hhc : p.hasOnClose <;>
            cases hb : s.modalOptions.visible.getD false <;>
              simp [handleResponse, hr, hk, hhv, hhc, hb, handleModalOptionsChange]

theorem handler_invoked_iff_guard_permits_witness :
    (handleResponse ⟨none, none, some true, none, true, true, false, false, true⟩
      (initialModalState Nat) .onPress 5 = (initialModalState Nat, [])) ∧
    Call.caller EventType.onPress (5 : Nat) ∈
      (handleResponse ⟨none, none, none, none, true, true, false, false, true⟩
        (initialModalState Nat) .onPress 5).2 :=
  ⟨(handler_invoked_iff_guard_permits
      ⟨none, none, some true, none, true, true, false, false, true⟩
      (initialModalState Nat) .onPress 5).1 rfl,
    (handler_invoked_iff_guard_permits
      ⟨none, none, none, none, true, true, false, false, true⟩
      (initialModalState Nat) .onPress 5).2.mpr (by decide)⟩

/-- C2 counterexample: with `loading` false and `disabledModalClose` true, a
click on the main slot of Modal.tsx with a registered `onClick` handler
produces no toggle at all — the guard of Modal.tsx applies
`disabledModalClose` to every wrapped slot, not only to the container —
refuting the claim that non-container slots toggle normally. -/
theorem slot_guard_counterexample :
    isResponse ⟨none, none, some false, some true, true, true, true, false, false⟩ = false ∧
    slotInteract ⟨none, none, some false, some true, true, true, true, false, false⟩
      (initialModalState Nat) .main .onClick 0 = (initialModalState Nat, []) := by
  decide

/-- C2 (amended): when `loading` is falsy and `disabledModalClose` is `true`,
in Modal.tsx NO slot interaction toggles (the single guard applies to header,
main and footer alike, and the container receives no handlers); in the
part_000 variant the container interaction is suppressed while header and
footer interactions (guard `!loading` alone) still toggle, and main receives
no handlers. -/
theorem disabled_close_gates_slots {E : Type} (p : ModalProps) (s : ModalState E)
    (kind : EventType) (e : E)
    (hload : p.loading.getD false = false)
    (hdmc : p.disabledModalClose = some true)
    (hreg : hasHandler p kind = true) :
    (∀ slot, slotInteract p s slot kind e = (s, [])) ∧
    part000SlotInteract p s .container kind e = (s, []) ∧
    (part000SlotInteract p s .header kind e).1.modalOptions.visible
      = some (!(s.modalOptions.visible.getD false)) ∧
    (part000SlotInteract p s .footer kind e).1.modalOptions.visible
      = some (!(s.modalOptions.visible.getD false)) ∧
    part000SlotInteract p s .main kind e = (s, []) := by
  refine ⟨?_, ?_, ?_, ?_, ?_⟩
  · intro slot
    cases slot <;>
      simp [slotInteract, slotHasEvents, hreg, handleResponse, isResponse, hdmc]
  · simp [part000SlotInteract, part000SlotHasEvents, part000CheckFor, hreg,
      part000HandleResponse, part000Response, hdmc]
  · simp [part000SlotInteract, part000SlotHasEvents, part000CheckFor, hreg,
      part000HandleResponse, part000Response, hload]
  · simp [part000SlotInteract, part000SlotHasEvents, part000CheckFor, hreg,
      part000HandleResponse, part000Response, hload]
  · simp [part000SlotInteract, part000SlotHasEvents]

theorem disabled_close_gates_slots_witness :
    slotInteract ⟨none, none, none, some true, true, true, true, false, false⟩
      (initialModalState Nat) .header .onClick 0 = (initialModalState Nat, []) ∧
    (part000SlotInteract ⟨none, none, none, some true, true, true, true, false, false⟩
      (initialModalState Nat) .header .onClick 0).1.modalOptions.visible = some true :=
  ⟨(disabled_close_gates_slots ⟨none, none, none, some true, true, true, true, false, false⟩
      (initialModalState Nat) .onClick 0 rfl rfl rfl).1 .header,
    (disabled_close_gates_slots ⟨none, none, none, some true, true, true, true, false, false⟩
      (initialModalState Nat) .onClick 0 rfl rfl rfl).2.2.1⟩

/-- C3 counterexample: at the first resolution with `visible` true and
`defaultVisible` false, the spec formula (controlled wins) yields `true` but
the source computes `defaultVisible ?? visible`, committing `false`. -/
theorem first_resolution_precedence_counterexample :
    specFirstResolveNext ⟨some true, some false, none, none, true, true, false, false, false⟩
      = some true ∧
    resolveNext ⟨some true, some false, none, none, true, true, false, false, false⟩
      (initialModalState Nat) = some false ∧
    resolveNext ⟨some true, some false, none, none, true, true, false, false, false⟩
      (initialModalState Nat)
      ≠ specFirstResolveNext ⟨some true, some false, none, none, true, true, false, false, false⟩ ∧
    (resolve ⟨some true, some false, none, none, true, true, false, false, false⟩
      (initialModalState Nat)).1.modalOptions.visible = some false := by
  decide

/-- C3 (amended): on the very first resolution (`status` equals `idle`), the
next visibility value is `defaultVisible ?? controlledVisible` — the default,
when present, takes precedence over the controlled input — the committed
value follows it (no-op when undefined), and the lifecycle is marked settled
regardless of whether that value is defined. -/
theorem first_resolution_default_precedence {E : Type} (p : ModalProps)
    (s : ModalState E) (h : s.status = "idle") :
    resolveNext p s = jsNullish p.defaultVisible p.visible ∧
    (resolve p s).1.modalOptions.visible
      = (match jsNullish p.defaultVisible p.visible with
        | some nv => some nv
        | none => s.modalOptions.visible) ∧
    (resolve p s).1.status = "succeeded" := by
  refine ⟨by simp [resolveNext, h], ?_, ?_⟩ <;>
    cases hn : jsNullish p.defaultVisible p.visible <;>
      simp [resolve, resolveNext, h, hn]

theorem first_resolution_default_precedence_witness :
    resolveNext ⟨some false, some true, none, none, true, true, false, false, false⟩
      (initialModalState Nat) = some true ∧
    (resolve ⟨some false, some true, none, none, true, true, false, false, false⟩
      (initialModalState Nat)).1.modalOptions.visible = some true ∧
    (resolve ⟨some false, some true, none, none, true, true, false, false, false⟩
      (initialModalState Nat)).1.status = "succeeded" :=
  first_resolution_default_precedence
    ⟨some false, some true, none, none, true, true, false, false, false⟩
    (initialModalState Nat) rfl

/-- C9 counterexample: with an uncontrolled `visible`, after a permitted
toggle the authoritative internal value is `some true`, but the `visible`
field of the slot props bundle is still `none` (the raw controlled prop), so
the bundle does not carry the authoritative value. -/
theorem children_visible_counterexample :
    (handleResponse ⟨none, none, none, none, false, false, true, false, false⟩
      (initialModalState Nat) .onClick 0).1.modalOptions.visible = some true ∧
    (childrenProps "r0" ⟨none, none, none, none, false, false, true, false, false⟩).visible
      = none ∧
    (childrenProps "r0" ⟨none, none, none, none, false, false, true, false, false⟩).visible
      ≠ (handleResponse ⟨none, none, none, none, false, false, true, false, false⟩
          (initialModalState Nat) .onClick 0).1.modalOptions.visible := by
  decide

/-- C9 (amended): for every render cycle and every slot, the `visible` field
of the props bundle equals the controlled `visible` prop supplied by the
caller (not the internal `modalOptions.visible`), alongside the id, loading
and defaultVisible fields. -/
theorem children_props_fields (id : String) (p : ModalProps) :
    (childrenProps id p).visible = p.visible ∧
    (childrenProps id p).id = id ∧
    (childrenProps id p).loading = p.loading ∧
    (childrenProps id p).defaultVisible = p.defaultVisible :=
  ⟨rfl, rfl, rfl, rfl⟩
